import Mathlib

/-!
A verification development for the cadence-estimation pipeline in
`src/main.js`. The source file contains two self-contained variants of the
same application (two IIFEs):

* variant `V1` (the richer one, first IIFE): five classification bands,
  span-based cadence formula with a density fallback for a single event,
  peak detection with a prominence test, refractory interval 300 ms;
* variant `V2` (the simple one, second IIFE): three classification bands,
  density-based cadence formula, simpler peak detection, refractory
  interval 250 ms.

Timestamps are embedded as `ℤ` (JavaScript `Date.now()` produces integer
milliseconds) and rates as `ℚ`; JavaScript double arithmetic is exact on
these code paths for the integer and small-rational values involved. The
gravity-filter / peak-detection stage needs `Real.sqrt` for the Euclidean
magnitude, so that stage lives over `ℝ`. DOM/chart rendering is plumbing
and is modelled only up to the values delivered to it (the displayed
cadence and the classification label/color pair).
-/

namespace Plot13

/-- A classification result as produced by `classify` / `updateUI`:
a display label and a CSS color. -/
structure StateStyle where
  label : String
  color : String
deriving DecidableEq, Repr

/-- A 3-axis acceleration reading whose components may individually be
absent (the DOM reports `null` for an unavailable axis). -/
structure Accel where
  x : Option ℝ
  y : Option ℝ
  z : Option ℝ

/-- JavaScript number coercion applied to a possibly-`null` axis value:
`ToNumber(null) = 0`, which is what arithmetic on a missing component
performs in `handleMotion`. -/
noncomputable def jsNum (v : Option ℝ) : ℝ :=
  v.getD 0

/-- A 3-component gravity estimate. -/
structure Vec3 where
  x : ℝ
  y : ℝ
  z : ℝ

namespace V1

/-- Constant `THRESHOLD_SONG1_END` (main.js line 11). -/
def THRESHOLD_SONG1_END : ℚ := 20
/-- Constant `THRESHOLD_TRANS1_END` (main.js line 12). -/
def THRESHOLD_TRANS1_END : ℚ := 40
/-- Constant `THRESHOLD_SONG2_END` (main.js line 13). -/
def THRESHOLD_SONG2_END : ℚ := 100
/-- Constant `THRESHOLD_TRANS2_END` (main.js line 14). -/
def THRESHOLD_TRANS2_END : ℚ := 120

/-- Constant `MIN_STEP_INTERVAL` in ms (main.js line 19). -/
def MIN_STEP_INTERVAL : ℤ := 300
/-- Constant `PEAK_THRESHOLD` (main.js line 20). -/
noncomputable def PEAK_THRESHOLD : ℝ := 1.2
/-- Constant `MIN_PEAK_PROMINENCE` (main.js line 21). -/
noncomputable def MIN_PEAK_PROMINENCE : ℝ := 0.5
/-- Constant `windowSeconds` (main.js line 22). -/
def windowSeconds : ℕ := 5
/-- Constant `alpha`, the low-pass coefficient (main.js line 27). -/
noncomputable def alpha : ℝ := 0.8
/-- Constant `historyLength` (main.js line 30). -/
def historyLength : ℕ := 60

/-- Function `classify` (main.js lines 53-68): a cascade of `<` tests
against the four thresholds, falling through to the final unbounded band. -/
def classify (cadence : ℚ) : StateStyle :=
  if cadence < THRESHOLD_SONG1_END then ⟨"曲①", "#6c757d"⟩
  else if cadence < THRESHOLD_TRANS1_END then ⟨"遷移①", "#007bff"⟩
  else if cadence < THRESHOLD_SONG2_END then ⟨"曲②", "#5cb85c"⟩
  else if cadence < THRESHOLD_TRANS2_END then ⟨"遷移②", "#ffc107"⟩
  else ⟨"曲③", "#d9534f"⟩

/-- Function `updateUI` (main.js lines 71-77), restricted to the values it
delivers to the presentation sink: `null` shows the distinguished
"initializing" pseudo-state, a number is classified. -/
def updateUI (cadence : Option ℚ) : StateStyle :=
  match cadence with
  | none => ⟨"初期化中", "#888"⟩
  | some c => classify c

/-- Function `computeCadence` (main.js lines 79-95). It first prunes
`stepTimestamps` to the trailing window (a mutation of the module state,
returned here as the second component), then: 0 events yield 0; at least 2
events yield the span-based formula guarded by `durationMinutes <= 0`;
exactly 1 event yields the density formula. -/
def computeCadence (now : ℤ) (stepTimestamps : List ℤ) : ℚ × List ℤ :=
  let windowStart := now - (windowSeconds : ℤ) * 1000
  let pruned := stepTimestamps.filter (fun ts => windowStart ≤ ts)
  let count : ℕ := pruned.length
  if count = 0 then (0, pruned)
  else if 2 ≤ count then
    let first := pruned.head?.getD 0
    let last := pruned.getLast?.getD 0
    let durationMinutes : ℚ := ((last - first : ℤ) : ℚ) / 60000
    if durationMinutes ≤ 0 then (0, pruned)
    else (((count : ℚ) - 1) / durationMinutes, pruned)
  else ((count : ℚ) / (windowSeconds : ℚ) * 60, pruned)

/-- Division instrumented to fail instead of using Lean's `x / 0 = 0`
convention; used to state that `computeCadence` never divides by zero. -/
def divChk (a b : ℚ) : Option ℚ :=
  if b = 0 then none else some (a / b)

/-- Function `computeCadence` with every division routed through `divChk`;
it returns `none` exactly when some executed division has a zero divisor. -/
def computeCadenceChk (now : ℤ) (stepTimestamps : List ℤ) : Option ℚ :=
  let windowStart := now - (windowSeconds : ℤ) * 1000
  let pruned := stepTimestamps.filter (fun ts => windowStart ≤ ts)
  let count : ℕ := pruned.length
  if count = 0 then some 0
  else if 2 ≤ count then
    let first := pruned.head?.getD 0
    let last := pruned.getLast?.getD 0
    (divChk ((last - first : ℤ) : ℚ) 60000).bind (fun durationMinutes =>
      if durationMinutes ≤ 0 then some 0
      else divChk ((count : ℚ) - 1) durationMinutes)
  else (divChk (count : ℚ) (windowSeconds : ℚ)).map (fun d => d * 60)

/-- Function `pushHistory` (main.js lines 97-102) without the chart
plumbing: append, then `shift` once the length exceeds `historyLength`. -/
def pushHistory (cadence : ℚ) (hist : List (Option ℚ)) : List (Option ℚ) :=
  let h := hist ++ [some cadence]
  if historyLength < h.length then h.drop 1 else h

/-- The module-level mutable state of variant 1 touched by the estimator,
reset and tick paths: `lastStepTs` (line 18), `stepTimestamps` (line 25),
`cadenceHistory` (line 31), and the two values last delivered to the
presentation sink by `updateUI` (the shown cadence and the shown state). -/
structure AppState where
  lastStepTs : ℤ
  stepTimestamps : List ℤ
  cadenceHistory : List (Option ℚ)
  shownCadence : Option ℚ
  shownState : StateStyle
deriving DecidableEq, Repr

/-- The state at script start: `lastStepTs = 0`, empty window, history all
`null`, and the initial `updateUI(null)` call (main.js line 187). -/
def initState : AppState :=
  ⟨0, [], List.replicate historyLength none, none, updateUI none⟩

/-- Function `onStep` (main.js lines 104-109): the refractory gate; an
accepted timestamp updates `lastStepTs` and is appended to the window. -/
def onStep (ts : ℤ) (s : AppState) : AppState :=
  if ts - s.lastStepTs < MIN_STEP_INTERVAL then s
  else ⟨ts, s.stepTimestamps ++ [ts], s.cadenceHistory, s.shownCadence, s.shownState⟩

/-- Function `resetAll` (main.js lines 167-173): clears the window and the
history and calls `updateUI(null)`. (`lastStepTs`, `lastPeakTime` and the
gravity estimate are left untouched.) -/
def resetAll (s : AppState) : AppState :=
  ⟨s.lastStepTs, [], List.replicate historyLength none, none, updateUI none⟩

/-- One firing of the `setInterval` callback (main.js lines 180-184):
compute the cadence (pruning the window), deliver it to `updateUI`, and
push it into the history. -/
def tick (now : ℤ) (s : AppState) : AppState :=
  let r := computeCadence now s.stepTimestamps
  ⟨s.lastStepTs, r.2, pushHistory r.1 s.cadenceHistory, some r.1, updateUI (some r.1)⟩

/-- The state of the motion-handling stage of variant 1: the gravity
estimate (line 26), the retained previous magnitudes `prevFiltered` and
`lastFiltered` (lines 112, 114), `lastPeakTime` (line 113), and the
estimator state it feeds through `onStep`. -/
structure MotionState where
  gravity : Vec3
  prevFiltered : ℝ
  lastFiltered : ℝ
  lastPeakTime : ℤ
  app : AppState

open Classical in
/-- Function `handleMotion` (main.js lines 115-141): if the
`accelerationIncludingGravity` field is absent the sample is dropped;
otherwise the gravity estimate is low-pass updated (a missing individual
axis coerces to 0 under JavaScript arithmetic on `null`), the linear
magnitude is taken, and the peak test (rise, amplitude threshold,
prominence, falling edge, refractory interval) possibly fires `onStep`. -/
noncomputable def handleMotion (now : ℤ) (accel : Option Accel) (s : MotionState) : MotionState :=
  match accel with
  | none => s
  | some a =>
    let gx := alpha * s.gravity.x + (1 - alpha) * jsNum a.x
    let gy := alpha * s.gravity.y + (1 - alpha) * jsNum a.y
    let gz := alpha * s.gravity.z + (1 - alpha) * jsNum a.z
    let ax := jsNum a.x - gx
    let ay := jsNum a.y - gy
    let az := jsNum a.z - gz
    let mag := Real.sqrt (ax * ax + ay * ay + az * az)
    if s.prevFiltered < s.lastFiltered ∧
        PEAK_THRESHOLD < s.lastFiltered ∧
        MIN_PEAK_PROMINENCE < s.lastFiltered - s.prevFiltered ∧
        mag ≤ s.lastFiltered ∧
        MIN_STEP_INTERVAL < now - s.lastPeakTime then
      ⟨⟨gx, gy, gz⟩, s.lastFiltered, mag, now, onStep now s.app⟩
    else
      ⟨⟨gx, gy, gz⟩, s.lastFiltered, mag, s.lastPeakTime, s.app⟩

end V1

namespace V2

/-- Constant `THRESHOLD_STATIONARY` (main.js line 200). -/
def THRESHOLD_STATIONARY : ℚ := 20
/-- Constant `THRESHOLD_FAST` (main.js line 201). -/
def THRESHOLD_FAST : ℚ := 110
/-- Constant `MIN_STEP_INTERVAL` in ms (main.js line 205). -/
def MIN_STEP_INTERVAL : ℤ := 250
/-- Constant `PEAK_THRESHOLD` (main.js line 206). -/
noncomputable def PEAK_THRESHOLD : ℝ := 1.0
/-- Constant `windowSeconds` (main.js line 207). -/
def windowSeconds : ℕ := 5
/-- Constant `alpha` (main.js line 212). -/
noncomputable def alpha : ℝ := 0.8

/-- Function `classify` (main.js lines 237-241). -/
def classify (cadence : ℚ) : StateStyle :=
  if cadence < THRESHOLD_STATIONARY then ⟨"静止", "#666"⟩
  else if THRESHOLD_FAST ≤ cadence then ⟨"早歩き", "#d9534f"⟩
  else ⟨"歩行", "#5cb85c"⟩

/-- Function `computeCadence` (main.js lines 250-260): prune to the
trailing window, then the density formula `(count / windowSeconds) * 60`,
with 0 events short-circuited to 0. -/
def computeCadence (now : ℤ) (stepTimestamps : List ℤ) : ℚ × List ℤ :=
  let windowStart := now - (windowSeconds : ℤ) * 1000
  let pruned := stepTimestamps.filter (fun ts => windowStart ≤ ts)
  let count : ℕ := pruned.length
  if count = 0 then (0, pruned)
  else ((count : ℚ) / (windowSeconds : ℚ) * 60, pruned)

/-- Function `computeCadence` of variant 2 with its division routed
through `V1.divChk`. -/
def computeCadenceChk (now : ℤ) (stepTimestamps : List ℤ) : Option ℚ :=
  let windowStart := now - (windowSeconds : ℤ) * 1000
  let pruned := stepTimestamps.filter (fun ts => windowStart ≤ ts)
  let count : ℕ := pruned.length
  if count = 0 then some 0
  else (V1.divChk (count : ℚ) (windowSeconds : ℚ)).map (fun d => d * 60)

/-- The estimator state of variant 2: `lastStepTs` (line 204) and
`stepTimestamps` (line 210). -/
structure EstState where
  lastStepTs : ℤ
  stepTimestamps : List ℤ
deriving DecidableEq, Repr

/-- The estimator state at script start. -/
def initEst : EstState := ⟨0, []⟩

/-- Function `onStep` (main.js lines 269-274). -/
def onStep (ts : ℤ) (s : EstState) : EstState :=
  if ts - s.lastStepTs < MIN_STEP_INTERVAL then s
  else ⟨ts, s.stepTimestamps ++ [ts]⟩

/-- The state of the motion-handling stage of variant 2: the gravity
estimate (line 211), `lastFiltered` (line 277), `lastPeakTime` (line 278),
and the estimator state it feeds through `onStep`. -/
structure MotionState where
  gravity : Vec3
  lastFiltered : ℝ
  lastPeakTime : ℤ
  est : EstState

open Classical in
/-- Function `handleMotion` (main.js lines 279-300): as in variant 1 but
with the simpler peak test (amplitude threshold, falling edge, refractory
interval). -/
noncomputable def handleMotion (now : ℤ) (accel : Option Accel) (s : MotionState) : MotionState :=
  match accel with
  | none => s
  | some a =>
    let gx := alpha * s.gravity.x + (1 - alpha) * jsNum a.x
    let gy := alpha * s.gravity.y + (1 - alpha) * jsNum a.y
    let gz := alpha * s.gravity.z + (1 - alpha) * jsNum a.z
    let ax := jsNum a.x - gx
    let ay := jsNum a.y - gy
    let az := jsNum a.z - gz
    let mag := Real.sqrt (ax * ax + ay * ay + az * az)
    if PEAK_THRESHOLD < s.lastFiltered ∧
        mag ≤ s.lastFiltered ∧
        MIN_STEP_INTERVAL < now - s.lastPeakTime then
      ⟨⟨gx, gy, gz⟩, mag, now, onStep now s.est⟩
    else
      ⟨⟨gx, gy, gz⟩, mag, s.lastPeakTime, s.est⟩

end V2

/-! ### Spec-side band descriptions (for the classifier claims)

The spec (§4.4) describes `classify` as: an ordered list of ascending upper
bounds, returning the label of the first bound the rate is below, else the
final unbounded label; the induced half-open bands partition `[0, +∞)`.
The following definitions state that description; the theorems compare the
source functions against it. -/

/-- Following the spec's words (§4.4): return the label paired with the
first upper bound `b` such that `r < b`, else the final unbounded label. -/
def firstBandLabel : List (ℚ × StateStyle) → StateStyle → ℚ → StateStyle
  | [], finalBand, _ => finalBand
  | (b, st) :: rest, finalBand, r =>
    if r < b then st else firstBandLabel rest finalBand r

namespace V1

/-- The bounded bands of variant 1, in source order (main.js lines 53-65). -/
def bands : List (ℚ × StateStyle) :=
  [(THRESHOLD_SONG1_END, ⟨"曲①", "#6c757d"⟩),
   (THRESHOLD_TRANS1_END, ⟨"遷移①", "#007bff"⟩),
   (THRESHOLD_SONG2_END, ⟨"曲②", "#5cb85c"⟩),
   (THRESHOLD_TRANS2_END, ⟨"遷移②", "#ffc107"⟩)]

/-- The final unbounded band of variant 1 (main.js line 67). -/
def finalBand : StateStyle := ⟨"曲③", "#d9534f"⟩

/-- Membership of a rate in the `i`-th half-open band induced by the
variant-1 thresholds (band 4 is the unbounded one). -/
def inBand (i : ℕ) (r : ℚ) : Prop :=
  match i with
  | 0 => r < THRESHOLD_SONG1_END
  | 1 => THRESHOLD_SONG1_END ≤ r ∧ r < THRESHOLD_TRANS1_END
  | 2 => THRESHOLD_TRANS1_END ≤ r ∧ r < THRESHOLD_SONG2_END
  | 3 => THRESHOLD_SONG2_END ≤ r ∧ r < THRESHOLD_TRANS2_END
  | 4 => THRESHOLD_TRANS2_END ≤ r
  | _ + 5 => False

/-- The label of the `i`-th variant-1 band. -/
def bandLabel (i : ℕ) : StateStyle :=
  match i with
  | 0 => ⟨"曲①", "#6c757d"⟩
  | 1 => ⟨"遷移①", "#007bff"⟩
  | 2 => ⟨"曲②", "#5cb85c"⟩
  | 3 => ⟨"遷移②", "#ffc107"⟩
  | _ => ⟨"曲③", "#d9534f"⟩

end V1

namespace V2

/-- The bounded bands of variant 2 in ascending-bound order: the source
(main.js lines 237-241) tests the stationary bound, then the fast bound
from the other side; its band structure is `[0,20)`, `[20,110)`, `[110,∞)`. -/
def bands : List (ℚ × StateStyle) :=
  [(THRESHOLD_STATIONARY, ⟨"静止", "#666"⟩),
   (THRESHOLD_FAST, ⟨"歩行", "#5cb85c"⟩)]

/-- The final unbounded band of variant 2. -/
def finalBand : StateStyle := ⟨"早歩き", "#d9534f"⟩

/-- Membership of a rate in the `i`-th half-open band induced by the
variant-2 thresholds. -/
def inBand (i : ℕ) (r : ℚ) : Prop :=
  match i with
  | 0 => r < THRESHOLD_STATIONARY
  | 1 => THRESHOLD_STATIONARY ≤ r ∧ r < THRESHOLD_FAST
  | 2 => THRESHOLD_FAST ≤ r
  | _ + 3 => False

/-- The label of the `i`-th variant-2 band. -/
def bandLabel (i : ℕ) : StateStyle :=
  match i with
  | 0 => ⟨"静止", "#666"⟩
  | 1 => ⟨"歩行", "#5cb85c"⟩
  | _ => ⟨"早歩き", "#d9534f"⟩

end V2

/-! ### Traces of the variant-1 event loop (for the window invariant) -/

namespace V1

/-- One callback delivered to the variant-1 event loop that touches the
event window: a step detection / manual injection (`onStep`) or a periodic
cadence computation (`tick`). -/
inductive Op where
  | step (ts : ℤ)
  | tick (now : ℤ)
deriving DecidableEq, Repr

/-- The clock reading at which an `Op` is delivered. -/
def opTime : Op → ℤ
  | .step ts => ts
  | .tick now => now

/-- Apply one callback to the application state. -/
def applyOp (s : AppState) : Op → AppState
  | .step ts => onStep ts s
  | .tick now => tick now s

/-- Run a trace of callbacks from a starting state. -/
def run (s : AppState) (ops : List Op) : AppState :=
  ops.foldl applyOp s

/-- The event-window invariant: consecutive retained timestamps are at
least the refractory interval apart (pairwise, which forces strictly
increasing order), and no retained timestamp exceeds `lastStepTs`. -/
def WindowInv (s : AppState) : Prop :=
  s.stepTimestamps.Pairwise (fun a b => a + MIN_STEP_INTERVAL ≤ b) ∧
  ∀ x ∈ s.stepTimestamps, x ≤ s.lastStepTs

lemma windowInv_init : WindowInv initState := by
  constructor
  · simp [initState]
  · intro x hx
    simp [initState] at hx

lemma windowInv_onStep (ts : ℤ) (s : AppState) (h : WindowInv s) :
    WindowInv (onStep ts s) := by
  obtain ⟨hpair, hle⟩ := h
  unfold onStep
  split
  · exact ⟨hpair, hle⟩
  · rename_i hacc
    rw [not_lt] at hacc
    constructor
    · rw [List.pairwise_append]
      refine ⟨hpair, List.pairwise_singleton _ _, ?_⟩
      intro x hx y hy
      rw [List.mem_singleton] at hy
      subst hy
      have := hle x hx
      unfold MIN_STEP_INTERVAL at hacc ⊢
      omega
    · intro x hx
      rw [List.mem_append, List.mem_singleton] at hx
      show x ≤ ts
      rcases hx with hx | hx
      · have := hle x hx
        unfold MIN_STEP_INTERVAL at hacc
        omega
      · omega

lemma windowInv_tick (now : ℤ) (s : AppState) (h : WindowInv s) :
    WindowInv (tick now s) := by
  obtain ⟨hpair, hle⟩ := h
  have hsnd : (computeCadence now s.stepTimestamps).2 =
      s.stepTimestamps.filter (fun ts => now - (windowSeconds : ℤ) * 1000 ≤ ts) := by
    simp only [computeCadence]
    split_ifs <;> rfl
  constructor
  · show (computeCadence now s.stepTimestamps).2.Pairwise _
    rw [hsnd]
    exact hpair.sublist (List.filter_sublist _)
  · intro x hx
    show x ≤ s.lastStepTs
    rw [tick] at hx
    simp only at hx
    rw [hsnd] at hx
    exact hle x (List.mem_of_mem_filter hx)

lemma windowInv_run (s : AppState) (ops : List Op) (h : WindowInv s) :
    WindowInv (run s ops) := by
  induction ops generalizing s with
  | nil => exact h
  | cons op rest ih =>
    rw [run, List.foldl_cons]
    apply ih
    cases op with
    | step ts => exact windowInv_onStep ts s h
    | tick now => exact windowInv_tick now s h

end V1

/-! ### Helper lemmas about the two cadence estimators -/

namespace V1

lemma computeCadenceChk_eq (now : ℤ) (l : List ℤ) :
    computeCadenceChk now l = some (computeCadence now l).1 := by
  simp only [computeCadenceChk, computeCadence]
  by_cases h0 : (l.filter (fun ts => now - (windowSeconds : ℤ) * 1000 ≤ ts)).length = 0
  · rw [if_pos h0, if_pos h0]
  · rw [if_neg h0, if_neg h0]
    by_cases h2 : 2 ≤ (l.filter (fun ts => now - (windowSeconds : ℤ) * 1000 ≤ ts)).length
    · rw [if_pos h2, if_pos h2]
      rw [divChk, if_neg (by norm_num)]
      rw [Option.some_bind]
      by_cases hd : (((l.filter (fun ts => now - (windowSeconds : ℤ) * 1000 ≤ ts)).getLast?.getD 0 -
          (l.filter (fun ts => now - (windowSeconds : ℤ) * 1000 ≤ ts)).head?.getD 0 : ℤ) : ℚ) / 60000 ≤ 0
      · rw [if_pos hd, if_pos hd]
      · rw [if_neg hd, if_neg hd]
        rw [divChk, if_neg (by intro hz; exact hd (le_of_eq hz))]
    · rw [if_neg h2, if_neg h2]
      rw [divChk, if_neg (by norm_num [windowSeconds])]
      rfl

lemma computeCadence_empty_zero (now : ℤ) (l : List ℤ)
    (h : l.filter (fun ts => now - (windowSeconds : ℤ) * 1000 ≤ ts) = []) :
    (computeCadence now l).1 = 0 := by
  simp only [computeCadence]
  rw [if_pos (by rw [h]; rfl)]

end V1

namespace V2

lemma computeCadenceChk_eq_simple (now : ℤ) (l : List ℤ) :
    computeCadenceChk now l = some (computeCadence now l).1 := by
  simp only [computeCadenceChk, computeCadence]
  by_cases h0 : (l.filter (fun ts => now - (windowSeconds : ℤ) * 1000 ≤ ts)).length = 0
  · rw [if_pos h0, if_pos h0]
  · rw [if_neg h0, if_neg h0]
    rw [V1.divChk, if_neg (by norm_num [windowSeconds])]
    rfl

lemma computeCadence_empty_zero_simple (now : ℤ) (l : List ℤ)
    (h : l.filter (fun ts => now - (windowSeconds : ℤ) * 1000 ≤ ts) = []) :
    (computeCadence now l).1 = 0 := by
  simp only [computeCadence]
  rw [if_pos (by rw [h]; rfl)]

lemma computeCadence_fst_eq (now : ℤ) (l : List ℤ) :
    (computeCadence now l).1 =
      ((l.filter (fun ts => now - (windowSeconds : ℤ) * 1000 ≤ ts)).length : ℚ) * 12 := by
  simp only [computeCadence]
  split_ifs with h0
  · rw [h0]
    norm_num
  · have h5 : ((windowSeconds : ℕ) : ℚ) = 5 := by norm_num [windowSeconds]
    rw [h5]
    ring

end V2

/-! ### Helper lemmas about the classifiers and the band structure -/

namespace V1

/-- The index of the band `classify` selects, mirroring its if-cascade. -/
def bandIdx (r : ℚ) : ℕ :=
  if r < THRESHOLD_SONG1_END then 0
  else if r < THRESHOLD_TRANS1_END then 1
  else if r < THRESHOLD_SONG2_END then 2
  else if r < THRESHOLD_TRANS2_END then 3
  else 4

lemma inBand_bandIdx (r : ℚ) : inBand (bandIdx r) r := by
  unfold bandIdx
  split_ifs with h1 h2 h3 h4
  · exact h1
  · exact ⟨le_of_not_lt h1, h2⟩
  · exact ⟨le_of_not_lt h2, h3⟩
  · exact ⟨le_of_not_lt h3, h4⟩
  · exact le_of_not_lt h4

lemma inBand_eq_bandIdx (j : ℕ) (r : ℚ) (hj : inBand j r) : j = bandIdx r := by
  unfold bandIdx
  match j with
  | 0 =>
    have h : r < THRESHOLD_SONG1_END := hj
    rw [if_pos h]
  | 1 =>
    obtain ⟨ha, hb⟩ := (hj : THRESHOLD_SONG1_END ≤ r ∧ r < THRESHOLD_TRANS1_END)
    rw [if_neg (not_lt.2 ha), if_pos hb]
  | 2 =>
    obtain ⟨ha, hb⟩ := (hj : THRESHOLD_TRANS1_END ≤ r ∧ r < THRESHOLD_SONG2_END)
    rw [if_neg (not_lt.2 (by simp only [THRESHOLD_SONG1_END, THRESHOLD_TRANS1_END] at ha ⊢; linarith)),
      if_neg (not_lt.2 ha), if_pos hb]
  | 3 =>
    obtain ⟨ha, hb⟩ := (hj : THRESHOLD_SONG2_END ≤ r ∧ r < THRESHOLD_TRANS2_END)
    rw [if_neg (not_lt.2 (by simp only [THRESHOLD_SONG1_END, THRESHOLD_SONG2_END] at ha ⊢; linarith)),
      if_neg (not_lt.2 (by simp only [THRESHOLD_TRANS1_END, THRESHOLD_SONG2_END] at ha ⊢; linarith)),
      if_neg (not_lt.2 ha), if_pos hb]
  | 4 =>
    have ha : THRESHOLD_TRANS2_END ≤ r := hj
    rw [if_neg (not_lt.2 (by simp only [THRESHOLD_SONG1_END, THRESHOLD_TRANS2_END] at ha ⊢; linarith)),
      if_neg (not_lt.2 (by simp only [THRESHOLD_TRANS1_END, THRESHOLD_TRANS2_END] at ha ⊢; linarith)),
      if_neg (not_lt.2 (by simp only [THRESHOLD_SONG2_END, THRESHOLD_TRANS2_END] at ha ⊢; linarith)),
      if_neg (not_lt.2 ha)]
  | n + 5 => exact absurd hj id

lemma inBand_unique (r : ℚ) : ∃! i : ℕ, inBand i r :=
  ⟨bandIdx r, inBand_bandIdx r, fun j hj => inBand_eq_bandIdx j r hj⟩

lemma classify_of_inBand (i : ℕ) (r : ℚ) (h : inBand i r) :
    classify r = bandLabel i := by
  match i with
  | 0 =>
    have h0 : r < THRESHOLD_SONG1_END := h
    rw [classify, if_pos h0]
    rfl
  | 1 =>
    obtain ⟨ha, hb⟩ := (h : THRESHOLD_SONG1_END ≤ r ∧ r < THRESHOLD_TRANS1_END)
    rw [classify, if_neg (not_lt.2 ha), if_pos hb]
    rfl
  | 2 =>
    obtain ⟨ha, hb⟩ := (h : THRESHOLD_TRANS1_END ≤ r ∧ r < THRESHOLD_SONG2_END)
    rw [classify, if_neg (not_lt.2 (by simp only [THRESHOLD_SONG1_END, THRESHOLD_TRANS1_END] at ha ⊢; linarith)),
      if_neg (not_lt.2 ha), if_pos hb]
    rfl
  | 3 =>
    obtain ⟨ha, hb⟩ := (h : THRESHOLD_SONG2_END ≤ r ∧ r < THRESHOLD_TRANS2_END)
    rw [classify, if_neg (not_lt.2 (by simp only [THRESHOLD_SONG1_END, THRESHOLD_SONG2_END] at ha ⊢; linarith)),
      if_neg (not_lt.2 (by simp only [THRESHOLD_TRANS1_END, THRESHOLD_SONG2_END] at ha ⊢; linarith)),
      if_neg (not_lt.2 ha), if_pos hb]
    rfl
  | 4 =>
    have ha : THRESHOLD_TRANS2_END ≤ r := h
    rw [classify, if_neg (not_lt.2 (by simp only [THRESHOLD_SONG1_END, THRESHOLD_TRANS2_END] at ha ⊢; linarith)),
      if_neg (not_lt.2 (by simp only [THRESHOLD_TRANS1_END, THRESHOLD_TRANS2_END] at ha ⊢; linarith)),
      if_neg (not_lt.2 (by simp only [THRESHOLD_SONG2_END, THRESHOLD_TRANS2_END] at ha ⊢; linarith)),
      if_neg (not_lt.2 ha)]
    rfl
  | n + 5 => exact absurd h id

lemma classify_eq_firstBandLabel (r : ℚ) :
    classify r = firstBandLabel bands finalBand r := by
  simp only [classify, bands, finalBand, firstBandLabel]

end V1

namespace V2

/-- The index of the band `classify` selects on the ascending band list. -/
def bandIdx (r : ℚ) : ℕ :=
  if r < THRESHOLD_STATIONARY then 0
  else if r < THRESHOLD_FAST then 1
  else 2

lemma inBand_bandIdx_simple (r : ℚ) : inBand (bandIdx r) r := by
  unfold bandIdx
  split_ifs with h1 h2
  · exact h1
  · exact ⟨le_of_not_lt h1, h2⟩
  · exact le_of_not_lt h2

lemma inBand_eq_bandIdx_simple (j : ℕ) (r : ℚ) (hj : inBand j r) : j = bandIdx r := by
  unfold bandIdx
  match j with
  | 0 =>
    have h : r < THRESHOLD_STATIONARY := hj
    rw [if_pos h]
  | 1 =>
    obtain ⟨ha, hb⟩ := (hj : THRESHOLD_STATIONARY ≤ r ∧ r < THRESHOLD_FAST)
    rw [if_neg (not_lt.2 ha), if_pos hb]
  | 2 =>
    have ha : THRESHOLD_FAST ≤ r := hj
    rw [if_neg (not_lt.2 (by simp only [THRESHOLD_STATIONARY, THRESHOLD_FAST] at ha ⊢; linarith)),
      if_neg (not_lt.2 ha)]
  | n + 3 => exact absurd hj id

lemma inBand_unique_simple (r : ℚ) : ∃! i : ℕ, inBand i r :=
  ⟨bandIdx r, inBand_bandIdx_simple r, fun j hj => inBand_eq_bandIdx_simple j r hj⟩

lemma classify_of_inBand_simple (i : ℕ) (r : ℚ) (h : inBand i r) :
    classify r = bandLabel i := by
  match i with
  | 0 =>
    have h0 : r < THRESHOLD_STATIONARY := h
    rw [classify, if_pos h0]
    rfl
  | 1 =>
    obtain ⟨ha, hb⟩ := (h : THRESHOLD_STATIONARY ≤ r ∧ r < THRESHOLD_FAST)
    rw [classify, if_neg (not_lt.2 ha), if_neg (not_le.2 hb)]
    rfl
  | 2 =>
    have ha : THRESHOLD_FAST ≤ r := h
    rw [classify, if_neg (not_lt.2 (by simp only [THRESHOLD_STATIONARY, THRESHOLD_FAST] at ha ⊢; linarith)),
      if_pos ha]
    rfl
  | n + 3 => exact absurd h id

lemma classify_eq_firstBandLabel_simple (r : ℚ) :
    classify r = firstBandLabel bands finalBand r := by
  by_cases h1 : r < THRESHOLD_STATIONARY
  · simp only [classify, bands, finalBand, firstBandLabel, if_pos h1]
  · by_cases h2 : THRESHOLD_FAST ≤ r
    · simp only [classify, bands, finalBand, firstBandLabel, if_neg h1,
        if_pos h2, if_neg (not_lt.2 h2)]
    · simp only [classify, bands, finalBand, firstBandLabel, if_neg h1,
        if_neg h2, if_pos (not_le.1 h2)]

end V2

/-! ### Helper lemma about the motion handler -/

namespace V1

lemma handleMotion_some_gravity (now : ℤ) (a : Accel) (s : MotionState) :
    (handleMotion now (some a) s).gravity =
      ⟨alpha * s.gravity.x + (1 - alpha) * jsNum a.x,
       alpha * s.gravity.y + (1 - alpha) * jsNum a.y,
       alpha * s.gravity.z + (1 - alpha) * jsNum a.z⟩ := by
  simp only [handleMotion]
  split <;> rfl

end V1

/-! ### Claim theorems -/

/-- Claim C1 (counterexample): the claim that the classification delivered
on the next tick after Reset (with no intervening events) is the
distinguished "uninitialized" state is false. After `resetAll`, the next
`setInterval` firing computes cadence 0 on the empty window and delivers
`classify 0` — the lowest rate band, not the "initializing" pseudo-state. -/
theorem reset_next_tick_not_uninitialized :
    (V1.tick 500 (V1.resetAll V1.initState)).shownState = ⟨"曲①", "#6c757d"⟩ ∧
    (V1.tick 500 (V1.resetAll V1.initState)).shownState ≠ ⟨"初期化中", "#888"⟩ := by
  constructor
  · norm_num [V1.tick, V1.resetAll, V1.initState, V1.computeCadence, V1.updateUI,
      V1.classify, V1.THRESHOLD_SONG1_END, V1.pushHistory, List.filter]
  · norm_num [V1.tick, V1.resetAll, V1.initState, V1.computeCadence, V1.updateUI,
      V1.classify, V1.THRESHOLD_SONG1_END, V1.pushHistory, List.filter]
    decide

/-- Claim C1 (amended): after the Reset command the EventWindow is empty,
every HistoryBuffer slot is "no data", and the Reset itself delivers the
distinguished "uninitialized" display; but the next tick after reset (with
no intervening events) delivers rate 0 classified into the lowest band,
which is distinct from the "uninitialized" display. -/
theorem reset_clears_state_and_next_tick_shows_zero_band (s : V1.AppState) (now : ℤ) :
    (V1.resetAll s).stepTimestamps = [] ∧
    (V1.resetAll s).cadenceHistory = List.replicate V1.historyLength none ∧
    (V1.resetAll s).shownState = V1.updateUI none ∧
    (V1.tick now (V1.resetAll s)).shownCadence = some 0 ∧
    (V1.tick now (V1.resetAll s)).shownState = V1.classify 0 ∧
    V1.classify 0 ≠ V1.updateUI none :=
  ⟨rfl, rfl, rfl, rfl, rfl, by decide⟩

/-- Claim C2: for every EventWindow content and every current time, the
`computeCadence` of both variants executes no division with a zero divisor
(the instrumented `computeCadenceChk` never returns `none` and agrees with
the uninstrumented result), and when pruning retains zero events the
returned rate is 0. -/
theorem computeCadence_no_division_fault (now : ℤ) (l : List ℤ) :
    V1.computeCadenceChk now l = some (V1.computeCadence now l).1 ∧
    V2.computeCadenceChk now l = some (V2.computeCadence now l).1 ∧
    (l.filter (fun ts => now - (V1.windowSeconds : ℤ) * 1000 ≤ ts) = [] →
      (V1.computeCadence now l).1 = 0) ∧
    (l.filter (fun ts => now - (V2.windowSeconds : ℤ) * 1000 ≤ ts) = [] →
      (V2.computeCadence now l).1 = 0) :=
  ⟨V1.computeCadenceChk_eq now l, V2.computeCadenceChk_eq_simple now l,
   V1.computeCadence_empty_zero now l, V2.computeCadence_empty_zero_simple now l⟩

/-- Claim C2 (witness): the division-safety and empty-window-zero facts
evaluated at the concrete input `now = 0`, empty window. -/
theorem computeCadence_no_division_fault_witness :
    V1.computeCadenceChk 0 [] = some (V1.computeCadence 0 []).1 ∧
    (V1.computeCadence 0 []).1 = 0 ∧ (V2.computeCadence 0 []).1 = 0 := by
  obtain ⟨h1, h2, h3, h4⟩ := computeCadence_no_division_fault 0 []
  exact ⟨h1, h3 rfl, h4 rfl⟩

/-- Claim C3: for every rate `r ≥ 0`, each variant's `classify` returns
the label of the first band whose upper bound exceeds `r` (else the final
unbounded label), the configured bounds are strictly ascending, and the
induced half-open bands are total and non-overlapping over `[0, +∞)`:
exactly one band contains `r`, and `classify` returns that band's label. -/
theorem classify_first_band_total_nonoverlapping (r : ℚ) (_hr : 0 ≤ r) :
    V1.classify r = firstBandLabel V1.bands V1.finalBand r ∧
    V2.classify r = firstBandLabel V2.bands V2.finalBand r ∧
    List.Chain' (· < ·) (V1.bands.map Prod.fst) ∧
    List.Chain' (· < ·) (V2.bands.map Prod.fst) ∧
    (∃! i : ℕ, V1.inBand i r) ∧
    (∃! i : ℕ, V2.inBand i r) ∧
    (∀ i : ℕ, V1.inBand i r → V1.classify r = V1.bandLabel i) ∧
    (∀ i : ℕ, V2.inBand i r → V2.classify r = V2.bandLabel i) := by
  refine ⟨V1.classify_eq_firstBandLabel r, V2.classify_eq_firstBandLabel_simple r, ?_, ?_,
    V1.inBand_unique r, V2.inBand_unique_simple r,
    fun i hi => V1.classify_of_inBand i r hi,
    fun i hi => V2.classify_of_inBand_simple i r hi⟩
  · norm_num [V1.bands, List.chain'_cons, V1.THRESHOLD_SONG1_END, V1.THRESHOLD_TRANS1_END,
      V1.THRESHOLD_SONG2_END, V1.THRESHOLD_TRANS2_END]
  · norm_num [V2.bands, List.chain'_cons, V2.THRESHOLD_STATIONARY, V2.THRESHOLD_FAST]

/-- Claim C3 (witness): the classifier facts evaluated at the concrete
rate `r = 3`. -/
theorem classify_first_band_total_nonoverlapping_witness :
    V1.classify 3 = firstBandLabel V1.bands V1.finalBand 3 ∧
    (∃! i : ℕ, V1.inBand i 3) := by
  have h := classify_first_band_total_nonoverlapping 3 (by decide)
  exact ⟨h.1, h.2.2.2.2.1⟩

/-- Claim C4 (counterexample): the claim that every malformed sample is
dropped with no state mutation is false. A sample whose acceleration
object is present but whose axis components are all absent (the DOM
reports `null`, which JavaScript arithmetic coerces to 0) passes the
`if (!a) return` guard, and `handleMotion` mutates the gravity estimate. -/
theorem handleMotion_missing_axes_mutates_gravity :
    V1.handleMotion 0 (some ⟨none, none, none⟩)
      ⟨⟨1, 1, 1⟩, 0, 0, 0, V1.initState⟩ ≠ ⟨⟨1, 1, 1⟩, 0, 0, 0, V1.initState⟩ := by
  intro hEq
  have hg := congrArg (fun st => st.gravity.x) hEq
  simp only [V1.handleMotion_some_gravity] at hg
  simp only [jsNum, Option.getD] at hg
  norm_num [V1.alpha] at hg

/-- Claim C4 (amended): only a sample whose acceleration field is entirely
absent (`accelerationIncludingGravity` is `null`) is dropped silently with
no mutation of any filter state, in both variants; a sample with a present
acceleration object but missing individual axis components is not dropped
and mutates the gravity estimate. -/
theorem handleMotion_null_sample_dropped (now : ℤ)
    (s1 : V1.MotionState) (s2 : V2.MotionState) :
    V1.handleMotion now none s1 = s1 ∧ V2.handleMotion now none s2 = s2 :=
  ⟨rfl, rfl⟩

/-- Claim C5 (counterexample): the claim that injecting at `t = 0` and
`t = 200` leaves the EventWindow at length 1 is false: `lastStepTs` is
initialized to 0, so the injection at `t = 0` is itself rejected by the
refractory gate (`0 - 0 < 250`), and the window stays empty. -/
theorem inject_at_time_zero_rejected :
    (V2.onStep 200 (V2.onStep 0 V2.initEst)).stepTimestamps = [] ∧
    (V2.onStep 200 (V2.onStep 0 V2.initEst)).stepTimestamps.length ≠ 1 := by
  constructor
  · norm_num [V2.onStep, V2.initEst, V2.MIN_STEP_INTERVAL]
  · norm_num [V2.onStep, V2.initEst, V2.MIN_STEP_INTERVAL]

/-- Claim C5 (amended): with refractory interval 250 ms and a fresh
detector state, injecting events 200 ms apart starting at a time at least
the refractory interval after the initial `lastStepTs = 0` (here `t = 250`
and `t = 450`) results in the first being accepted and the second being
rejected, so the EventWindow length stays 1. -/
theorem inject_after_refractory_start_second_rejected :
    (V2.onStep 450 (V2.onStep 250 V2.initEst)).stepTimestamps = [250] ∧
    (V2.onStep 450 (V2.onStep 250 V2.initEst)).stepTimestamps.length = 1 := by
  constructor
  · norm_num [V2.onStep, V2.initEst, V2.MIN_STEP_INTERVAL]
  · norm_num [V2.onStep, V2.initEst, V2.MIN_STEP_INTERVAL]

/-- Claim C6 (counterexample): the claim that injecting at `t = 0, 1000,
2000` and computing at `t = 2000` yields rate 36 is false: the injection
at `t = 0` is rejected by the refractory gate (`lastStepTs` starts at 0),
so only 2 events are retained and the density formula yields 24. -/
theorem density_injection_at_time_zero_rate_24 :
    (V2.computeCadence 2000
      (V2.onStep 2000 (V2.onStep 1000 (V2.onStep 0 V2.initEst))).stepTimestamps).1 = 24 ∧
    (V2.computeCadence 2000
      (V2.onStep 2000 (V2.onStep 1000 (V2.onStep 0 V2.initEst))).stepTimestamps).1 ≠ 36 := by
  constructor
  · norm_num [V2.onStep, V2.initEst, V2.computeCadence, V2.MIN_STEP_INTERVAL,
      V2.windowSeconds, List.filter]
  · norm_num [V2.onStep, V2.initEst, V2.computeCadence, V2.MIN_STEP_INTERVAL,
      V2.windowSeconds, List.filter]

/-- Claim C6 (amended): with `windowSeconds = 5` and the density-based
estimator, injecting 3 events 1000 ms apart through the manual-injection
path (which passes through the refractory gate), starting late enough that
the first is not rejected against the initial `lastStepTs = 0` (here
`t = 250, 1250, 2250`), and computing at the last injection time yields
rate `(3/5)*60 = 36`. -/
theorem density_injection_after_refractory_start_rate_36 :
    (V2.computeCadence 2250
      (V2.onStep 2250 (V2.onStep 1250 (V2.onStep 250 V2.initEst))).stepTimestamps).1 = 36 := by
  norm_num [V2.onStep, V2.initEst, V2.computeCadence, V2.MIN_STEP_INTERVAL,
    V2.windowSeconds, List.filter]

/-- Claim C7: with `windowSeconds = 5` and the span-based estimator,
injecting events through the manual-injection path at `t = 0, 1000, 2000`
(the same `onStep` record-path as a genuine detection, so the refractory
gate applies — it rejects the `t = 0` injection against the initial
`lastStepTs = 0`) and computing at `t = 2000` yields rate 60 events per
minute, as the claim states. -/
theorem span_injection_rate_60 :
    (V1.computeCadence 2000
      (V1.onStep 2000 (V1.onStep 1000 (V1.onStep 0 V1.initState))).stepTimestamps).1 = 60 := by
  norm_num [V1.onStep, V1.initState, V1.computeCadence, V1.MIN_STEP_INTERVAL,
    V1.windowSeconds, V1.updateUI, List.filter]

/-- Claim C8 (counterexample): the claim that the computed rate is
monotonically non-decreasing in the number of retained events is false for
the span-based variant: at `now = 5000`, the window `[4700, 5000]` yields
rate 200, and adding the further in-window event 300 yields rate
`1200/47 < 200`. -/
theorem span_rate_decreases_on_added_event :
    (V1.computeCadence 5000 [300, 4700, 5000]).1 < (V1.computeCadence 5000 [4700, 5000]).1 := by
  norm_num [V1.computeCadence, V1.windowSeconds, List.filter]

/-- Claim C8 (amended): for the density-based estimator (variant 2) the
rate is monotonically non-decreasing in the retained event count: adding a
further event timestamp to the window never decreases the computed rate,
for every window content and compute time. The span-based estimator
(variant 1) violates this. -/
theorem density_rate_monotone_in_event_count (now : ℤ) (l : List ℤ) (t : ℤ) :
    (V2.computeCadence now l).1 ≤ (V2.computeCadence now (t :: l)).1 := by
  rw [V2.computeCadence_fst_eq, V2.computeCadence_fst_eq]
  have hlen : (l.filter (fun ts => now - (V2.windowSeconds : ℤ) * 1000 ≤ ts)).length ≤
      ((t :: l).filter (fun ts => now - (V2.windowSeconds : ℤ) * 1000 ≤ ts)).length := by
    rw [List.filter_cons]
    split <;> simp
  have hcast : ((l.filter (fun ts => now - (V2.windowSeconds : ℤ) * 1000 ≤ ts)).length : ℚ) ≤
      ((t :: l).filter (fun ts => now - (V2.windowSeconds : ℤ) * 1000 ≤ ts)).length := by
    exact_mod_cast hlen
  linarith

/-- Claim C9: under a monotonic (non-decreasing) clock, after every trace
of `onStep` records and `tick` computations from the initial state, the
EventWindow timestamps are in non-decreasing order and no two entries are
closer together than the refractory interval `MIN_STEP_INTERVAL`. -/
theorem window_pairwise_refractory_under_monotone_clock (ops : List V1.Op)
    (_hmono : List.Chain' (fun a b => V1.opTime a ≤ V1.opTime b) ops) :
    (V1.run V1.initState ops).stepTimestamps.Pairwise (· ≤ ·) ∧
    (V1.run V1.initState ops).stepTimestamps.Pairwise
      (fun a b => a + V1.MIN_STEP_INTERVAL ≤ b) := by
  have h := V1.windowInv_run V1.initState ops V1.windowInv_init
  refine ⟨?_, h.1⟩
  refine h.1.imp ?_
  intro a b hab
  unfold V1.MIN_STEP_INTERVAL at hab
  omega

/-- Claim C9 (witness): the invariant evaluated on the concrete monotone
trace of one accepted step at `t = 300` and one tick at `t = 1000`. -/
theorem window_pairwise_refractory_under_monotone_clock_witness :
    (V1.run V1.initState [V1.Op.step 300, V1.Op.tick 1000]).stepTimestamps.Pairwise (· ≤ ·) ∧
    (V1.run V1.initState [V1.Op.step 300, V1.Op.tick 1000]).stepTimestamps.Pairwise
      (fun a b => a + V1.MIN_STEP_INTERVAL ≤ b) :=
  window_pairwise_refractory_under_monotone_clock [V1.Op.step 300, V1.Op.tick 1000]
    (List.chain'_cons.mpr ⟨by decide, List.chain'_singleton _⟩)

/-- Claim C10: in the span-based variant, if pruning leaves at least two
events and the first and last retained timestamps are equal, the guard
`durationMinutes <= 0` fires and `computeCadence` returns 0. -/
theorem span_zero_duration_returns_zero (now : ℤ) (l : List ℤ)
    (h2 : 2 ≤ (l.filter (fun ts => now - (V1.windowSeconds : ℤ) * 1000 ≤ ts)).length)
    (heq : (l.filter (fun ts => now - (V1.windowSeconds : ℤ) * 1000 ≤ ts)).head? =
      (l.filter (fun ts => now - (V1.windowSeconds : ℤ) * 1000 ≤ ts)).getLast?) :
    (V1.computeCadence now l).1 = 0 := by
  simp only [V1.computeCadence]
  rw [if_neg (by omega), if_pos h2]
  have hgd : ((l.filter (fun ts => now - (V1.windowSeconds : ℤ) * 1000 ≤ ts)).getLast?.getD 0 : ℤ) =
      (l.filter (fun ts => now - (V1.windowSeconds : ℤ) * 1000 ≤ ts)).head?.getD 0 := by
    rw [heq]
  rw [if_pos (by rw [hgd]; norm_num)]

/-- Claim C10 (witness): the zero-span case evaluated at the concrete
window `[7, 7]` computed at `now = 7`. -/
theorem span_zero_duration_returns_zero_witness :
    (V1.computeCadence 7 [7, 7]).1 = 0 :=
  span_zero_duration_returns_zero 7 [7, 7] (by decide) (by decide)

end Plot13
